import Mathlib

/-!
Verification development for a small Go HTTP weather gateway (main.go).
The program exposes a route "/weather/{city}": it splits the request path
with strings.SplitN(path, "/", 3), rejects paths with fewer than three
segments with status 400, and otherwise calls query(city), which loads an
API key from the file ".apiConfig" via loadApiConfig, performs one outbound
GET to the OpenWeatherMap endpoint, and JSON-decodes the response body into
a weatherData record.

The embedding below models JSON values as an inductive type (JSON numbers
are modelled as exact rationals), the filesystem and the network as
functions supplied to the embedded operations, and the Go (value, error)
multi-return convention as pairs with an Option String error component.
The JSON decoding functions follow the semantics of encoding/json Unmarshal
on the two struct shapes of the program: unknown fields are skipped, a JSON
null leaves the target unchanged, a type mismatch is an error, and a
top-level value that is neither an object nor null is an error.
-/

/-- A JSON value. Numbers are modelled as exact rationals. -/
inductive Json where
  | null : Json
  | bool (b : Bool) : Json
  | num (q : ℚ) : Json
  | str (s : String) : Json
  | arr (elems : List Json) : Json
  | obj (fields : List (String × Json)) : Json

/-- The raw bytes of a file or of a response body, abstracted to whether
they parse as JSON and, when they do, to the parsed JSON value. -/
inductive Body where
  | invalid : Body
  | valid (j : Json) : Body

/-- Go struct apiConfigData: one string field with JSON tag
"OpenWeatherMapApiKey". -/
structure apiConfigData where
  OpenWeatherMapApiKey : String
deriving DecidableEq

/-- The nested anonymous struct inside weatherData: field Kelvin, JSON tag
"temp", of Go type float64 (modelled as an exact rational). -/
structure MainData where
  Kelvin : ℚ
deriving DecidableEq

/-- Go struct weatherData: field Name with tag "name" and nested field Main
with tag "main". -/
structure weatherData where
  Name : String
  Main : MainData
deriving DecidableEq

/-- The zero value weatherData given by the Go composite literal. -/
def zeroWeather : weatherData := { Name := "", Main := { Kelvin := 0 } }

/-- Model of strings.EqualFold as encoding/json uses it to match a JSON
object key against a struct field name: case-insensitive equality, here by
ASCII case folding, which coincides with the simple Unicode folding of Go
on the ASCII field tags of this program. -/
def equalFold (a b : String) : Bool :=
  a.data.map Char.toLower == b.data.map Char.toLower

/-- Unmarshal semantics for the fields of an object being decoded into
apiConfigData: fields are processed in order, and a key matching the
recognized tag "OpenWeatherMapApiKey" case-insensitively (per the
encoding/json field-matching rule) must hold a string (null is skipped);
a later match overwrites an earlier one, and every other field is
ignored. -/
def decodeApiConfigFields : List (String × Json) → apiConfigData → Except String apiConfigData
  | [], acc => .ok acc
  | (k, v) :: rest, acc =>
    if equalFold k "OpenWeatherMapApiKey" then
      match v with
      | .str s => decodeApiConfigFields rest { OpenWeatherMapApiKey := s }
      | .null => decodeApiConfigFields rest acc
      | _ => .error "json: cannot unmarshal value into Go struct field apiConfigData.OpenWeatherMapApiKey of type string"
    else decodeApiConfigFields rest acc

/-- Unmarshal of a JSON value into apiConfigData: null leaves the zero
value, an object is decoded field by field, anything else is an error. -/
def decodeApiConfig : Json → Except String apiConfigData
  | .null => .ok { OpenWeatherMapApiKey := "" }
  | .obj fields => decodeApiConfigFields fields { OpenWeatherMapApiKey := "" }
  | _ => .error "json: cannot unmarshal value into Go value of type main.apiConfigData"

/-- json.Unmarshal of raw bytes into apiConfigData: syntactically invalid
JSON is an error, otherwise the parsed value is decoded. -/
def unmarshalApiConfig : Body → Except String apiConfigData
  | .invalid => .error "invalid character in JSON input"
  | .valid j => decodeApiConfig j

/-- Unmarshal semantics for the fields of the nested object under "main":
the recognized tag "temp" must hold a number (null is skipped), everything
else is ignored. -/
def decodeMainFields : List (String × Json) → MainData → Except String MainData
  | [], acc => .ok acc
  | (k, v) :: rest, acc =>
    if k = "temp" then
      match v with
      | .num q => decodeMainFields rest { Kelvin := q }
      | .null => decodeMainFields rest acc
      | _ => .error "json: cannot unmarshal value into Go struct field weatherData.main.temp of type float64"
    else decodeMainFields rest acc

/-- Unmarshal of a JSON value into the nested Main struct. -/
def decodeMain : Json → MainData → Except String MainData
  | .null, acc => .ok acc
  | .obj fields, acc => decodeMainFields fields acc
  | _, _ => .error "json: cannot unmarshal value into Go struct field weatherData.main of type struct"

/-- Unmarshal semantics for the fields of an object being decoded into
weatherData: tag "name" must hold a string, tag "main" is decoded by
decodeMain, null is skipped, every other field is ignored. -/
def decodeWeatherFields : List (String × Json) → weatherData → Except String weatherData
  | [], acc => .ok acc
  | (k, v) :: rest, acc =>
    if k = "name" then
      match v with
      | .str s => decodeWeatherFields rest { acc with Name := s }
      | .null => decodeWeatherFields rest acc
      | _ => .error "json: cannot unmarshal value into Go struct field weatherData.name of type string"
    else if k = "main" then
      match decodeMain v acc.Main with
      | .ok m => decodeWeatherFields rest { acc with Main := m }
      | .error e => .error e
    else decodeWeatherFields rest acc

/-- Unmarshal of a JSON value into weatherData. -/
def decodeWeatherData : Json → Except String weatherData
  | .null => .ok zeroWeather
  | .obj fields => decodeWeatherFields fields zeroWeather
  | _ => .error "json: cannot unmarshal value into Go value of type main.weatherData"

/-- json.Unmarshal of a raw response body into weatherData. -/
def unmarshalWeather : Body → Except String weatherData
  | .invalid => .error "invalid character in JSON input"
  | .valid j => decodeWeatherData j

/-- json.Marshal of a weatherData record, per the struct tags: an object
with the field "name" followed by the nested object "main" holding "temp". -/
def encodeWeatherData (d : weatherData) : Json :=
  .obj [("name", .str d.Name), ("main", .obj [("temp", .num d.Main.Kelvin)])]

/-- The filesystem as seen by os.ReadFile: a map from filename to contents,
with none meaning the read fails (missing or unreadable file). -/
def FS : Type := String → Option Body

/-- One upstream HTTP response: a status code and a raw body. -/
structure Resp where
  status : Nat
  body : Body

/-- The network as seen by http.Get: a map from URL to response, with none
meaning the transport fails (DNS, connection refused, and so on). -/
def Net : Type := String → Option Resp

/-- Go loadApiConfig(filename): read the file, then json.Unmarshal the
bytes into apiConfigData; on either failure return the zero value and the
error, otherwise the parsed configuration and nil. -/
def loadApiConfig (fs : FS) (filename : String) : apiConfigData × Option String :=
  match fs filename with
  | none => ({ OpenWeatherMapApiKey := "" }, some ("open " ++ filename ++ ": no such file or directory"))
  | some contents =>
    match unmarshalApiConfig contents with
    | .error e => ({ OpenWeatherMapApiKey := "" }, some e)
    | .ok c => (c, none)

/-- The URL built by fmt.Sprintf in query: plain string interpolation of
the city and the API key, with no escaping. -/
def weatherUrl (city key : String) : String :=
  "https://api.openweathermap.org/data/2.5/weather?q=" ++ city ++ "&appid=" ++ key ++ "&units=metric"

/-- The observable outcome of one call to query: the returned record, the
returned error, and the URL of the outbound GET when one was performed. -/
structure QueryOutcome where
  data : weatherData
  err : Option String
  requested : Option String
deriving DecidableEq

/-- Go query(city): load the configuration from ".apiConfig" (returning
its error with the zero record and no outbound call on failure), build the
URL, perform the GET (an error with the zero record on transport failure),
and json.Unmarshal the body into weatherData (an error with the zero
record on failure). The upstream status code is never consulted. -/
def query (fs : FS) (net : Net) (city : String) : QueryOutcome :=
  match loadApiConfig fs ".apiConfig" with
  | (_, some e) => { data := zeroWeather, err := some e, requested := none }
  | (apiConfig, none) =>
    match net (weatherUrl city apiConfig.OpenWeatherMapApiKey) with
    | none =>
      { data := zeroWeather,
        err := some ("Get " ++ weatherUrl city apiConfig.OpenWeatherMapApiKey ++ ": connection refused"),
        requested := some (weatherUrl city apiConfig.OpenWeatherMapApiKey) }
    | some resp =>
      match unmarshalWeather resp.body with
      | .error e =>
        { data := zeroWeather, err := some e,
          requested := some (weatherUrl city apiConfig.OpenWeatherMapApiKey) }
      | .ok d =>
        { data := d, err := none,
          requested := some (weatherUrl city apiConfig.OpenWeatherMapApiKey) }

/-- Go strings.SplitN for a single-character separator: the first
occurrence of the separator splits the character list into the part before
it and the part after it. -/
def splitFirst (sep : Char) : List Char → Option (List Char × List Char)
  | [] => none
  | c :: cs =>
    if c = sep then some ([], cs)
    else
      match splitFirst sep cs with
      | none => none
      | some (pre, post) => some (c :: pre, post)

/-- Go strings.SplitN(s, sep, n) for a single-character separator: at most
n substrings; the last substring is the unsplit remainder. -/
def splitN (sep : Char) : Nat → List Char → List (List Char)
  | 0, _ => []
  | 1, s => [s]
  | n + 2, s =>
    match splitFirst sep s with
    | none => [s]
    | some (pre, post) => pre :: splitN sep (n + 1) post

/-- The body written to the inbound HTTP response: either plain text (the
greeting or an error message) or a JSON-encoded value. -/
inductive RespBody where
  | text (s : String) : RespBody
  | json (j : Json) : RespBody

/-- The inbound HTTP response produced by a handler: status code, the
Content-Type header when one is set, and the body. -/
structure HandlerResponse where
  status : Nat
  contentType : Option String
  body : RespBody

/-- The observable outcome of the weather handler on one request: the
response written, and the city passed to query when query was invoked. -/
structure HandlerOutcome where
  resp : HandlerResponse
  queriedCity : Option String

/-- The anonymous handler registered in main for the route "/weather/":
split the request path on "/" into at most three parts; with fewer than
three parts respond 400 "City not specified" (http.Error sets a plain-text
content type); otherwise call query with the third part as the city; on
error respond 500 with the error message as the body; on success set the
Content-Type header to "application/json; charset=utf8" and write the
record JSON-encoded. -/
def weatherHandler (fs : FS) (net : Net) (path : String) : HandlerOutcome :=
  match splitN '/' 3 path.toList with
  | _ :: _ :: city :: _ =>
    let q := query fs net (String.mk city)
    match q.err with
    | some e =>
      { resp := { status := 500, contentType := some "text/plain; charset=utf-8", body := .text e },
        queriedCity := some (String.mk city) }
    | none =>
      { resp := { status := 200, contentType := some "application/json; charset=utf8",
                  body := .json (encodeWeatherData q.data) },
        queriedCity := some (String.mk city) }
  | _ =>
    { resp := { status := 400, contentType := some "text/plain; charset=utf-8", body := .text "City not specified" },
      queriedCity := none }

/-- A filesystem on which every read fails. -/
def fsMissing : FS := fun _ => none

/-- A filesystem whose every file is a well-formed JSON config holding the
recognized key with value "secret" between two unrecognized fields. -/
def fsConfig : FS := fun _ =>
  some (.valid (.obj [("note", .num 1), ("OpenWeatherMapApiKey", .str "secret"), ("extra", .bool true)]))

/-- A filesystem whose every file holds bytes that are not valid JSON. -/
def fsGarbled : FS := fun _ => some .invalid

/-- A network on which every request fails at the transport level. -/
def netDown : Net := fun _ => none

/-- A network answering every request with status 200 and the empty JSON
object as the body. -/
def netEmptyObj : Net := fun _ => some { status := 200, body := .valid (.obj []) }

/-- A network answering every request with status 503 and the empty JSON
object as the body. -/
def netEmptyObj503 : Net := fun _ => some { status := 503, body := .valid (.obj []) }

/-- A network answering every request with status 200 and a JSON array as
the body: valid JSON that does not unmarshal into weatherData. -/
def netArr : Net := fun _ => some { status := 200, body := .valid (.arr [.num 1]) }

/-- A network answering every request with status 404 and a typical
upstream weather payload carrying unrecognized fields next to "name" and
"main.temp". -/
def netCity : Net := fun _ =>
  some { status := 404,
         body := .valid (.obj [("name", .str "London"), ("cod", .num 200),
                               ("main", .obj [("humidity", .num 80), ("temp", .num 7)])]) }

/-- A string whose character list is nonempty is not the empty string. -/
theorem string_data_ne_nil (s : String) (h : s.data ≠ []) : s ≠ "" := by
  obtain ⟨l⟩ := s
  intro hc
  exact h (congrArg String.data hc)

/-- Appending to the right of a nonempty string keeps it nonempty. -/
theorem string_append_left_ne_empty (a b : String) (h : a.data ≠ []) : a ++ b ≠ "" := by
  apply string_data_ne_nil
  obtain ⟨la⟩ := a
  obtain ⟨lb⟩ := b
  intro hd
  exact h (List.append_eq_nil.mp hd).1

/-- Every error produced while decoding config fields is a nonempty message. -/
theorem decodeApiConfigFields_err_ne_empty (l : List (String × Json)) (acc : apiConfigData)
    (e : String) (h : decodeApiConfigFields l acc = .error e) : e ≠ "" := by
  induction l generalizing acc with
  | nil => exact absurd h (by simp [decodeApiConfigFields])
  | cons p rest ih =>
    obtain ⟨k, v⟩ := p
    rw [decodeApiConfigFields.eq_def] at h
    dsimp only at h
    split at h
    · split at h
      · exact ih _ h
      · exact ih _ h
      · obtain rfl := (Except.error.inj h).symm; decide
    · exact ih _ h

/-- Every error produced while decoding a config value is a nonempty message. -/
theorem decodeApiConfig_err_ne_empty (j : Json) (e : String)
    (h : decodeApiConfig j = .error e) : e ≠ "" := by
  cases j with
  | obj fields => exact decodeApiConfigFields_err_ne_empty fields _ e h
  | null => exact absurd h (by simp [decodeApiConfig])
  | bool b => obtain rfl := (Except.error.inj h).symm; decide
  | num q => obtain rfl := (Except.error.inj h).symm; decide
  | str s => obtain rfl := (Except.error.inj h).symm; decide
  | arr xs => obtain rfl := (Except.error.inj h).symm; decide

/-- Every error produced by unmarshalling a config file is a nonempty message. -/
theorem unmarshalApiConfig_err_ne_empty (b : Body) (e : String)
    (h : unmarshalApiConfig b = .error e) : e ≠ "" := by
  cases b with
  | invalid => obtain rfl := (Except.error.inj h).symm; decide
  | valid j => exact decodeApiConfig_err_ne_empty j e h

/-- Every error produced while decoding the nested main fields is a
nonempty message. -/
theorem decodeMainFields_err_ne_empty (l : List (String × Json)) (acc : MainData)
    (e : String) (h : decodeMainFields l acc = .error e) : e ≠ "" := by
  induction l generalizing acc with
  | nil => exact absurd h (by simp [decodeMainFields])
  | cons p rest ih =>
    obtain ⟨k, v⟩ := p
    rw [decodeMainFields.eq_def] at h
    dsimp only at h
    split at h
    · split at h
      · exact ih _ h
      · exact ih _ h
      · obtain rfl := (Except.error.inj h).symm; decide
    · exact ih _ h

/-- Every error produced while decoding the nested main value is a
nonempty message. -/
theorem decodeMain_err_ne_empty (j : Json) (acc : MainData) (e : String)
    (h : decodeMain j acc = .error e) : e ≠ "" := by
  cases j with
  | obj fields => exact decodeMainFields_err_ne_empty fields acc e h
  | null => exact absurd h (by simp [decodeMain])
  | bool b => obtain rfl := (Except.error.inj h).symm; decide
  | num q => obtain rfl := (Except.error.inj h).symm; decide
  | str s => obtain rfl := (Except.error.inj h).symm; decide
  | arr xs => obtain rfl := (Except.error.inj h).symm; decide

/-- Every error produced while decoding weather fields is a nonempty
message. -/
theorem decodeWeatherFields_err_ne_empty (l : List (String × Json)) (acc : weatherData)
    (e : String) (h : decodeWeatherFields l acc = .error e) : e ≠ "" := by
  induction l generalizing acc with
  | nil => exact absurd h (by simp [decodeWeatherFields])
  | cons p rest ih =>
    obtain ⟨k, v⟩ := p
    rw [decodeWeatherFields.eq_def] at h
    dsimp only at h
    split at h
    · split at h
      · exact ih _ h
      · exact ih _ h
      · obtain rfl := (Except.error.inj h).symm; decide
    · split at h
      · split at h
        · exact ih _ h
        · obtain rfl := (Except.error.inj h).symm
          exact decodeMain_err_ne_empty v acc.Main _ (by assumption)
      · exact ih _ h

/-- Every error produced while decoding a weather value is a nonempty
message. -/
theorem decodeWeatherData_err_ne_empty (j : Json) (e : String)
    (h : decodeWeatherData j = .error e) : e ≠ "" := by
  cases j with
  | obj fields => exact decodeWeatherFields_err_ne_empty fields zeroWeather e h
  | null => exact absurd h (by simp [decodeWeatherData])
  | bool b => obtain rfl := (Except.error.inj h).symm; decide
  | num q => obtain rfl := (Except.error.inj h).symm; decide
  | str s => obtain rfl := (Except.error.inj h).symm; decide
  | arr xs => obtain rfl := (Except.error.inj h).symm; decide

/-- Every error produced by unmarshalling a response body is a nonempty
message. -/
theorem unmarshalWeather_err_ne_empty (b : Body) (e : String)
    (h : unmarshalWeather b = .error e) : e ≠ "" := by
  cases b with
  | invalid => obtain rfl := (Except.error.inj h).symm; decide
  | valid j => exact decodeWeatherData_err_ne_empty j e h

/-- Every error returned by loadApiConfig is a nonempty message. -/
theorem loadApiConfig_err_ne_empty (fs : FS) (filename : String) (e : String)
    (h : (loadApiConfig fs filename).2 = some e) : e ≠ "" := by
  rw [loadApiConfig.eq_def] at h
  split at h
  · obtain rfl := (Option.some.inj h).symm
    apply string_append_left_ne_empty
    obtain ⟨lf⟩ := filename
    intro hd
    exact absurd (List.append_eq_nil.mp hd).1 (by decide)
  · split at h
    · obtain rfl := (Option.some.inj h).symm
      exact unmarshalApiConfig_err_ne_empty _ _ (by assumption)
    · exact absurd h (by simp)

/-- Every error returned by query is a nonempty message. -/
theorem query_err_ne_empty (fs : FS) (net : Net) (city : String) (e : String)
    (h : (query fs net city).err = some e) : e ≠ "" := by
  rw [query.eq_def] at h
  split at h
  · obtain rfl := (Option.some.inj h).symm
    rename_i heq
    exact loadApiConfig_err_ne_empty fs ".apiConfig" _ (by rw [heq])
  · split at h
    · obtain rfl := (Option.some.inj h).symm
      apply string_append_left_ne_empty
      obtain ⟨lc⟩ := city
      intro hd
      exact absurd (List.append_eq_nil.mp hd).1 (by decide)
    · split at h
      · obtain rfl := (Option.some.inj h).symm
        exact unmarshalWeather_err_ne_empty _ _ (by assumption)
      · exact absurd h (by simp)

/-- Once the configuration loads, query reduces to the outbound call and
the unmarshal of its body. -/
theorem query_load_ok (fs : FS) (net : Net) (city : String) (c : apiConfigData)
    (h : loadApiConfig fs ".apiConfig" = (c, none)) :
    query fs net city =
      match net (weatherUrl city c.OpenWeatherMapApiKey) with
      | none =>
        { data := zeroWeather,
          err := some ("Get " ++ weatherUrl city c.OpenWeatherMapApiKey ++ ": connection refused"),
          requested := some (weatherUrl city c.OpenWeatherMapApiKey) }
      | some resp =>
        match unmarshalWeather resp.body with
        | .error e =>
          { data := zeroWeather, err := some e,
            requested := some (weatherUrl city c.OpenWeatherMapApiKey) }
        | .ok d =>
          { data := d, err := none,
            requested := some (weatherUrl city c.OpenWeatherMapApiKey) } := by
  rw [query.eq_def, h]

/-- SplitN with limit three on a path of the form "/weather/" followed by
anything yields the empty first segment, "weather", and the remainder. -/
theorem splitN_weather (rest : List Char) :
    splitN '/' 3 ('/' :: 'w' :: 'e' :: 'a' :: 't' :: 'h' :: 'e' :: 'r' :: '/' :: rest) =
      [[], ['w', 'e', 'a', 't', 'h', 'e', 'r'], rest] := rfl

/-- C7: when the config file is missing or unreadable, or its contents are
not valid JSON, loadApiConfig returns the zero configuration together with
an error. -/
theorem loadApiConfig_missing_or_invalid (fs : FS) (filename : String)
    (h : fs filename = none ∨ fs filename = some .invalid) :
    (loadApiConfig fs filename).1 = { OpenWeatherMapApiKey := "" } ∧
      ∃ e, (loadApiConfig fs filename).2 = some e := by
  rcases h with h | h <;> rw [loadApiConfig.eq_def, h] <;> exact ⟨rfl, _, rfl⟩

/-- C7 witness: a missing file and a garbled file both fail with the zero
configuration. -/
theorem loadApiConfig_missing_or_invalid_witness :
    ((loadApiConfig fsMissing ".apiConfig").1 = { OpenWeatherMapApiKey := "" } ∧
      ∃ e, (loadApiConfig fsMissing ".apiConfig").2 = some e) ∧
    ((loadApiConfig fsGarbled ".apiConfig").1 = { OpenWeatherMapApiKey := "" } ∧
      ∃ e, (loadApiConfig fsGarbled ".apiConfig").2 = some e) :=
  ⟨loadApiConfig_missing_or_invalid fsMissing ".apiConfig" (Or.inl rfl),
   loadApiConfig_missing_or_invalid fsGarbled ".apiConfig" (Or.inr rfl)⟩

/-- C8: encoding a weatherData record to JSON and decoding the result
back yields an equal record; the name and the temperature are preserved
exactly. -/
theorem weatherData_json_round_trip (d : weatherData) :
    decodeWeatherData (encodeWeatherData d) = .ok d := by
  obtain ⟨n, ⟨k⟩⟩ := d
  simp [encodeWeatherData, decodeWeatherData, decodeWeatherFields, decodeMain,
    decodeMainFields, zeroWeather]

/-- C9: when loading the config file fails, query returns that error with
the zero-valued record and performs no outbound request. -/
theorem query_config_error_no_outbound (fs : FS) (net : Net) (city : String)
    (c : apiConfigData) (e : String)
    (h : loadApiConfig fs ".apiConfig" = (c, some e)) :
    query fs net city = { data := zeroWeather, err := some e, requested := none } := by
  rw [query.eq_def, h]

/-- C9 witness: with a missing config file, query fails with the read
error and requests nothing. -/
theorem query_config_error_no_outbound_witness :
    query fsMissing netEmptyObj "London" =
      { data := zeroWeather, err := some "open .apiConfig: no such file or directory",
        requested := none } :=
  query_config_error_no_outbound fsMissing netEmptyObj "London"
    { OpenWeatherMapApiKey := "" } "open .apiConfig: no such file or directory" rfl

/-- C6: for every city and every successfully loaded configuration, the
outbound URL is the fixed endpoint with the city and the key interpolated
verbatim, with no validation or escaping. -/
theorem query_outbound_url_verbatim (fs : FS) (net : Net) (city : String)
    (c : apiConfigData) (h : loadApiConfig fs ".apiConfig" = (c, none)) :
    (query fs net city).requested =
      some ("https://api.openweathermap.org/data/2.5/weather?q=" ++ city ++ "&appid=" ++
        c.OpenWeatherMapApiKey ++ "&units=metric") := by
  rw [query_load_ok fs net city c h]
  cases net (weatherUrl city c.OpenWeatherMapApiKey) with
  | none => rfl
  | some resp =>
    dsimp only
    cases unmarshalWeather resp.body with
    | error e => rfl
    | ok d => rfl

/-- C6 witness: a city containing spaces, a slash and query metacharacters
is inserted into the URL unchanged. -/
theorem query_outbound_url_verbatim_witness :
    (query fsConfig netDown "new york/?&x").requested =
      some "https://api.openweathermap.org/data/2.5/weather?q=new york/?&x&appid=secret&units=metric" :=
  query_outbound_url_verbatim fsConfig netDown "new york/?&x"
    { OpenWeatherMapApiKey := "secret" } rfl

/-- C1 counterexample: for the path exactly "/weather/", the handler does
not return 400 and query is invoked with the empty city; with a missing
config file the response is a 500. -/
theorem weather_handler_slash_path_counterexample :
    (weatherHandler fsMissing netEmptyObj "/weather/").resp.status = 500 ∧
      (weatherHandler fsMissing netEmptyObj "/weather/").queriedCity = some "" :=
  ⟨rfl, rfl⟩

/-- C1 amended: splitting the path exactly "/weather/" yields three
segments whose third is empty, so the handler never takes the 400 branch
there: it invokes query with the empty city string, for every filesystem
and network. -/
theorem weather_handler_slash_path_queries_empty_city (fs : FS) (net : Net) :
    (weatherHandler fs net "/weather/").queriedCity = some "" ∧
      (weatherHandler fs net "/weather/").resp.status ≠ 400 := by
  have hred : weatherHandler fs net "/weather/" =
      match (query fs net "").err with
      | some e =>
        { resp := { status := 500, contentType := some "text/plain; charset=utf-8",
                    body := .text e },
          queriedCity := some "" }
      | none =>
        { resp := { status := 200, contentType := some "application/json; charset=utf8",
                    body := .json (encodeWeatherData (query fs net "").data) },
          queriedCity := some "" } := rfl
  rw [hred]
  cases (query fs net "").err <;> simp

/-- C10: for a path "/weather/" followed by a remainder that itself
contains slashes, the city passed to query is the entire remainder,
embedded slashes included, because the path is split into at most three
parts. -/
theorem weather_handler_embedded_slashes (fs : FS) (net : Net) (rest : String)
    (h : '/' ∈ rest.toList) :
    (weatherHandler fs net ("/weather/" ++ rest)).queriedCity = some rest := by
  obtain ⟨l⟩ := rest
  have hred : weatherHandler fs net ("/weather/" ++ String.mk l) =
      match (query fs net (String.mk l)).err with
      | some e =>
        { resp := { status := 500, contentType := some "text/plain; charset=utf-8",
                    body := .text e },
          queriedCity := some (String.mk l) }
      | none =>
        { resp := { status := 200, contentType := some "application/json; charset=utf8",
                    body := .json (encodeWeatherData (query fs net (String.mk l)).data) },
          queriedCity := some (String.mk l) } := rfl
  rw [hred]
  cases (query fs net (String.mk l)).err <;> simp

/-- C10 witness: the path "/weather/a/b/c" makes the handler query the
city "a/b/c" whole. -/
theorem weather_handler_embedded_slashes_witness :
    '/' ∈ "a/b/c".toList ∧
      (weatherHandler fsMissing netDown ("/weather/" ++ "a/b/c")).queriedCity = some "a/b/c" :=
  ⟨by decide, weather_handler_embedded_slashes fsMissing netDown "a/b/c" (by decide)⟩

/-- C5: whenever the split produces three parts, the handler queries the
third part as the city; on error it responds 500 with the nonempty error
message as a plain-text body, and on success it responds 200 with the JSON
content type and the record JSON-encoded as the body. -/
theorem weather_handler_city_present (fs : FS) (net : Net) (path : String)
    (a b c : List Char) (hsplit : splitN '/' 3 path.toList = [a, b, c]) :
    (weatherHandler fs net path).queriedCity = some (String.mk c) ∧
    (∀ e, (query fs net (String.mk c)).err = some e →
      (weatherHandler fs net path).resp.status = 500 ∧
      (weatherHandler fs net path).resp.body = .text e ∧ e ≠ "") ∧
    ((query fs net (String.mk c)).err = none →
      (weatherHandler fs net path).resp.status = 200 ∧
      (weatherHandler fs net path).resp.contentType = some "application/json; charset=utf8" ∧
      (weatherHandler fs net path).resp.body =
        .json (encodeWeatherData (query fs net (String.mk c)).data)) := by
  have hred : weatherHandler fs net path =
      match (query fs net (String.mk c)).err with
      | some e =>
        { resp := { status := 500, contentType := some "text/plain; charset=utf-8",
                    body := .text e },
          queriedCity := some (String.mk c) }
      | none =>
        { resp := { status := 200, contentType := some "application/json; charset=utf8",
                    body := .json (encodeWeatherData (query fs net (String.mk c)).data) },
          queriedCity := some (String.mk c) } := by
    rw [weatherHandler.eq_def, hsplit]
  refine ⟨?_, ?_, ?_⟩
  · rw [hred]
    cases (query fs net (String.mk c)).err <;> simp
  · intro e he
    rw [hred, he]
    exact ⟨rfl, rfl, query_err_ne_empty fs net (String.mk c) e he⟩
  · intro he
    rw [hred, he]
    exact ⟨rfl, rfl, rfl⟩

/-- C5 witness: for "/weather/London" with an unreadable config file, the
handler queries "London" and responds 500 with the nonempty read error as
the body. -/
theorem weather_handler_city_present_witness :
    (weatherHandler fsMissing netDown "/weather/London").queriedCity = some "London" ∧
    (weatherHandler fsMissing netDown "/weather/London").resp.status = 500 ∧
    (weatherHandler fsMissing netDown "/weather/London").resp.body =
      .text "open .apiConfig: no such file or directory" ∧
    ("open .apiConfig: no such file or directory" : String) ≠ "" := by
  have h := weather_handler_city_present fsMissing netDown "/weather/London"
    [] ['w', 'e', 'a', 't', 'h', 'e', 'r'] ['L', 'o', 'n', 'd', 'o', 'n'] rfl
  have h2 := h.2.1 "open .apiConfig: no such file or directory" rfl
  exact ⟨h.1, h2.1, h2.2.1, h2.2.2⟩

/-- C2 counterexample: the empty JSON object contains neither a name nor a
main.temp field, yet query returns a record (and no error): the
zero-valued record. -/
theorem query_empty_object_counterexample :
    (query fsConfig netEmptyObj "London").err = none ∧
      (query fsConfig netEmptyObj "London").data = zeroWeather :=
  ⟨rfl, rfl⟩

/-- C2 amended: query returns a record exactly when the body unmarshals
into the weatherData shape; fields absent from the body keep their zero
values, and on any unmarshal failure query returns the error with the
zero-valued record, never a partially-populated one. -/
theorem query_success_iff_unmarshal_ok (fs : FS) (net : Net) (city : String)
    (c : apiConfigData) (resp : Resp)
    (hload : loadApiConfig fs ".apiConfig" = (c, none))
    (hnet : net (weatherUrl city c.OpenWeatherMapApiKey) = some resp) :
    (∀ d, unmarshalWeather resp.body = .ok d →
      query fs net city =
        { data := d, err := none,
          requested := some (weatherUrl city c.OpenWeatherMapApiKey) }) ∧
    (∀ e, unmarshalWeather resp.body = .error e →
      query fs net city =
        { data := zeroWeather, err := some e,
          requested := some (weatherUrl city c.OpenWeatherMapApiKey) }) := by
  constructor
  · intro d hd
    rw [query_load_ok fs net city c hload, hnet]
    dsimp only
    rw [hd]
  · intro e he
    rw [query_load_ok fs net city c hload, hnet]
    dsimp only
    rw [he]

/-- C2 witness: a decodable body yields its decoded record with no error,
and a non-decodable body yields the error with the zero record. -/
theorem query_success_iff_unmarshal_ok_witness :
    query fsConfig netEmptyObj "Paris" =
      { data := zeroWeather, err := none, requested := some (weatherUrl "Paris" "secret") } ∧
    query fsConfig netArr "Paris" =
      { data := zeroWeather,
        err := some "json: cannot unmarshal value into Go value of type main.weatherData",
        requested := some (weatherUrl "Paris" "secret") } :=
  ⟨(query_success_iff_unmarshal_ok fsConfig netEmptyObj "Paris"
      { OpenWeatherMapApiKey := "secret" } { status := 200, body := .valid (.obj []) }
      rfl rfl).1 zeroWeather rfl,
   (query_success_iff_unmarshal_ok fsConfig netArr "Paris"
      { OpenWeatherMapApiKey := "secret" } { status := 200, body := .valid (.arr [.num 1]) }
      rfl rfl).2 "json: cannot unmarshal value into Go value of type main.weatherData" rfl⟩

/-- C3 counterexample: a JSON array is valid JSON, yet query returns an
error for it, so valid JSON alone does not imply success. -/
theorem query_valid_json_array_counterexample :
    (query fsConfig netArr "London").err =
      some "json: cannot unmarshal value into Go value of type main.weatherData" :=
  rfl

/-- C3 amended: query never inspects the upstream status code: its outcome
depends only on the response bodies; and for every body that unmarshals
into the weatherData shape, query succeeds with the decoded record
whatever the status code. -/
theorem query_status_code_never_inspected :
    (∀ (fs : FS) (n1 n2 : Net) (city : String),
      (∀ u, (n1 u).map Resp.body = (n2 u).map Resp.body) →
      query fs n1 city = query fs n2 city) ∧
    (∀ (fs : FS) (net : Net) (city : String) (st : Nat) (j : Json) (d : weatherData)
      (c : apiConfigData),
      loadApiConfig fs ".apiConfig" = (c, none) →
      net (weatherUrl city c.OpenWeatherMapApiKey) = some { status := st, body := .valid j } →
      decodeWeatherData j = .ok d →
      query fs net city =
        { data := d, err := none,
          requested := some (weatherUrl city c.OpenWeatherMapApiKey) }) := by
  constructor
  · intro fs n1 n2 city hb
    cases hload : loadApiConfig fs ".apiConfig" with
    | mk c oe =>
      cases oe with
      | some e0 => rw [query.eq_def, query.eq_def, hload]
      | none =>
        rw [query_load_ok fs n1 city c hload, query_load_ok fs n2 city c hload]
        have hu := hb (weatherUrl city c.OpenWeatherMapApiKey)
        cases h1 : n1 (weatherUrl city c.OpenWeatherMapApiKey) with
        | none =>
          cases h2 : n2 (weatherUrl city c.OpenWeatherMapApiKey) with
          | none => rfl
          | some r2 => rw [h1, h2] at hu; simp at hu
        | some r1 =>
          cases h2 : n2 (weatherUrl city c.OpenWeatherMapApiKey) with
          | none => rw [h1, h2] at hu; simp at hu
          | some r2 =>
            rw [h1, h2] at hu
            have hbody : r1.body = r2.body := by simpa using hu
            dsimp only
            rw [hbody]
  · intro fs net city st j d c hload hnet hdec
    rw [query_load_ok fs net city c hload, hnet]
    dsimp only [unmarshalWeather]
    rw [hdec]

/-- C3 witness: the same body under status 200 and status 503 gives equal
outcomes, and a typical payload under status 404 still decodes to a
success. -/
theorem query_status_code_never_inspected_witness :
    query fsConfig netEmptyObj "London" = query fsConfig netEmptyObj503 "London" ∧
    query fsConfig netCity "Oslo" =
      { data := { Name := "London", Main := { Kelvin := 7 } }, err := none,
        requested := some (weatherUrl "Oslo" "secret") } :=
  ⟨query_status_code_never_inspected.1 fsConfig netEmptyObj netEmptyObj503 "London" (fun _ => rfl),
   query_status_code_never_inspected.2 fsConfig netCity "Oslo" 404
     (.obj [("name", .str "London"), ("cod", .num 200),
            ("main", .obj [("humidity", .num 80), ("temp", .num 7)])])
     { Name := "London", Main := { Kelvin := 7 } } { OpenWeatherMapApiKey := "secret" }
     rfl rfl rfl⟩
